import Mathlib

/-!
Shallow embedding of the scan-orchestration core of the sentinel-hub
Django backend: the tool/job status fields, the Celery scheduling tasks
(`security_api/tasks.py`), the REST actions (`security_api/views.py`),
the nmap integration (`scripts/nmap_integration.py`) and the Wazuh
severity mapping (`scripts/wazuh_integration.py`).  Time is modelled as
integer epoch seconds; Python `timedelta` components are modelled with
floor division/modulus, which is what `timedelta.days`/`.seconds` use.
-/

namespace SentinelHub

/-- `SecurityTool.STATUS_CHOICES` in `security_api/models.py`. -/
inductive ToolStatus
  | inactive
  | active
  | scanning
  | error
  deriving DecidableEq

/-- The status strings actually written to `ScanResult.status` by the code:
`queued` (scheduler, start_scan), `pending` (run_now), `running`, `completed`,
`failed`.  `timed_out` and `cancelled` appear in no write site but are kept so
the claims about them can be stated. -/
inductive JobStatus
  | queued
  | pending
  | running
  | completed
  | failed
  | timed_out
  | cancelled
  deriving DecidableEq

/-- `Vulnerability.SEVERITY_CHOICES` in `security_api/models.py`. -/
inductive Severity
  | critical
  | high
  | medium
  | low
  | info
  deriving DecidableEq

/-- `SecurityAlert.ALERT_TYPE_CHOICES` in `security_api/models.py`. -/
inductive AlertType
  | intrusion
  | malware
  | vulnerability
  | anomaly
  | policy_violation
  | scan_complete
  deriving DecidableEq

/-- `ScanSchedule.FREQUENCY_CHOICES` in `security_api/models.py`. -/
inductive Frequency
  | hourly
  | daily
  | weekly
  | monthly
  deriving DecidableEq

/-- The `SecurityTool` model row (fields touched by the embedded code). -/
structure SecurityTool where
  name : String
  status : ToolStatus
  last_scan : Option Int
  scan_count : Nat
  error_message : Option String
  deriving DecidableEq

/-- The `ScanResult` model row. -/
structure ScanResult where
  toolName : String
  scan_type : String
  target : String
  start_time : Int
  end_time : Option Int
  status : JobStatus
  raw_output : String
  vulnerabilities_found : Nat
  deriving DecidableEq

/-- The `ScanSchedule` model row. -/
structure ScanSchedule where
  toolName : String
  target : String
  scan_type : String
  frequency : Frequency
  is_active : Bool
  next_run : Option Int
  last_run : Option Int
  deriving DecidableEq

/-- The `SecurityAlert` model row (fields set by `NmapScanner.scan_network`). -/
structure SecurityAlert where
  alert_type : AlertType
  severity : Severity
  message : String
  source : String
  toolName : String
  acknowledged : Bool
  deriving DecidableEq

/-! ### Python timedelta components

For a `timedelta` of `delta` total seconds, Python normalizes
`days = delta fdiv 86400` and `seconds = delta fmod 86400` (floor
division, so `seconds ∈ [0, 86400)`). -/

/-- `timedelta.days` of a delta of `delta` seconds. -/
def td_days (delta : Int) : Int := Int.fdiv delta 86400

/-- `timedelta.seconds` of a delta of `delta` seconds: the sub-day
seconds component, not the total. -/
def td_seconds (delta : Int) : Int := Int.fmod delta 86400

/-! ### Scheduler tasks (`security_api/tasks.py`) -/

/-- The due test of `trigger_scheduled_scans` for one daily schedule:
`schedule.last_run is None or (current_time - schedule.last_run).days >= 1`. -/
def daily_due (now : Int) (s : ScanSchedule) : Bool :=
  match s.last_run with
  | none => true
  | some lr => decide (1 ≤ td_days (now - lr))

/-- The due test of `trigger_hourly_scans` for one hourly schedule:
`schedule.last_run is None or (current_time - schedule.last_run).seconds >= 3600`.
Note the source reads `.seconds` (the sub-day component), not
`.total_seconds()`. -/
def hourly_due (now : Int) (s : ScanSchedule) : Bool :=
  match s.last_run with
  | none => true
  | some lr => decide (3600 ≤ td_seconds (now - lr))

/-- The `ScanResult.objects.create(..., status='queued')` row built by both
trigger tasks for a due schedule. -/
def makeQueuedJob (now : Int) (s : ScanSchedule) : ScanResult :=
  { toolName := s.toolName
    scan_type := s.scan_type
    target := s.target
    start_time := now
    end_time := none
    status := JobStatus.queued
    raw_output := ""
    vulnerabilities_found := 0 }

/-- `trigger_scheduled_scans` (tasks.py): filters `frequency='daily',
is_active=True`, and for each due schedule creates a queued `ScanResult`,
queues `execute_tool_scan`, and sets `last_run := now`,
`next_run := now + timedelta(days=1)`.  Returns the updated schedule rows and
the created jobs, in iteration order. -/
def trigger_scheduled_scans (now : Int) :
    List ScanSchedule → List ScanSchedule × List ScanResult
  | [] => ([], [])
  | s :: rest =>
    let (ss, js) := trigger_scheduled_scans now rest
    if s.frequency = Frequency.daily ∧ s.is_active = true then
      if daily_due now s then
        ({ s with last_run := some now, next_run := some (now + 86400) } :: ss,
         makeQueuedJob now s :: js)
      else (s :: ss, js)
    else (s :: ss, js)

/-- `trigger_hourly_scans` (tasks.py): same shape for `frequency='hourly'`,
with `next_run := now + timedelta(hours=1)`. -/
def trigger_hourly_scans (now : Int) :
    List ScanSchedule → List ScanSchedule × List ScanResult
  | [] => ([], [])
  | s :: rest =>
    let (ss, js) := trigger_hourly_scans now rest
    if s.frequency = Frequency.hourly ∧ s.is_active = true then
      if hourly_due now s then
        ({ s with last_run := some now, next_run := some (now + 3600) } :: ss,
         makeQueuedJob now s :: js)
      else (s :: ss, js)
    else (s :: ss, js)

/-- One scheduler tick: the two Celery Beat tasks the repository registers.
These are the only trigger tasks in tasks.py; no task looks at `weekly` or
`monthly` schedules. -/
def scheduler_tick (now : Int) (ss : List ScanSchedule) :
    List ScanSchedule × List ScanResult :=
  let (ss1, js1) := trigger_scheduled_scans now ss
  let (ss2, js2) := trigger_hourly_scans now ss1
  (ss2, js1 ++ js2)

/-! ### Severity mapping (`scripts/wazuh_integration.py`) -/

/-- `WazuhClient._cvss_to_severity`: `None → medium`, then fixed thresholds
9.0 / 7.0 / 4.0 on the float score. -/
def cvss_to_severity : Option ℚ → Severity
  | none => Severity.medium
  | some c =>
    if 9 ≤ c then Severity.critical
    else if 7 ≤ c then Severity.high
    else if 4 ≤ c then Severity.medium
    else Severity.low

/-- `WazuhClient._map_severity`: Wazuh alert level with thresholds 12 / 9 / 6. -/
def map_severity (level : Int) : Severity :=
  if 12 ≤ level then Severity.critical
  else if 9 ≤ level then Severity.high
  else if 6 ≤ level then Severity.medium
  else Severity.low

/-! ### REST actions (`security_api/views.py`) -/

/-- `ScanScheduleViewSet.toggle_active`: `schedule.is_active = not
schedule.is_active; schedule.save()`. -/
def toggle_active (s : ScanSchedule) : ScanSchedule :=
  { s with is_active := !s.is_active }

/-- `ScanScheduleViewSet.run_now`: creates a `ScanResult` with
`status='pending'` bound to the schedule's tool/target/scan_type, queues
`execute_tool_scan`, and writes nothing to the schedule row.  Returns the
(unchanged) schedule together with the created job. -/
def run_now (now : Int) (s : ScanSchedule) : ScanSchedule × ScanResult :=
  (s,
   { toolName := s.toolName
     scan_type := s.scan_type
     target := s.target
     start_time := now
     end_time := none
     status := JobStatus.pending
     raw_output := ""
     vulnerabilities_found := 0 })

/-- The REST-visible state `SecurityToolViewSet.start_scan` works on: the
tool row and the `ScanResult` rows. -/
structure ApiState where
  tool : SecurityTool
  jobs : List ScanResult
  deriving DecidableEq

/-- The two responses `start_scan` can return. -/
inductive StartScanResp
  | badRequest
  | scanStarted
  deriving DecidableEq

/-- `SecurityToolViewSet.start_scan`: sets `tool.status='scanning'` and saves
it BEFORE validating the target; an empty target then returns 400 with no
`ScanResult` created; otherwise it creates a queued `ScanResult`, saves
`tool.status='scanning'` again, queues `execute_tool_scan` and returns 200.
There is no check for an already-running job on the same (tool, target). -/
def start_scan (now : Int) (st : ApiState) (target scanType : String) :
    ApiState × StartScanResp :=
  let tool1 : SecurityTool := { st.tool with status := ToolStatus.scanning }
  if target = "" then
    ({ st with tool := tool1 }, StartScanResp.badRequest)
  else
    let job : ScanResult :=
      { toolName := tool1.name
        scan_type := scanType
        target := target
        start_time := now
        end_time := none
        status := JobStatus.queued
        raw_output := ""
        vulnerabilities_found := 0 }
    ({ tool := { tool1 with status := ToolStatus.scanning },
       jobs := st.jobs ++ [job] },
     StartScanResp.scanStarted)

/-- Set the job at index `i` to `running` (the `scan_result.status =
'running'; scan_result.save()` write of `execute_tool_scan`). -/
def mark_running : List ScanResult → Nat → List ScanResult
  | [], _ => []
  | r :: rs, 0 => { r with status := JobStatus.running } :: rs
  | r :: rs, Nat.succ n => r :: mark_running rs n

/-- The state writes `execute_tool_scan` performs (tasks.py, success path)
on the job at index `i` before delegating to the per-tool subtask: the job
goes to `running` and the tool to `scanning`; the task then returns with the
subtask merely queued. -/
def execute_tool_scan_start (st : ApiState) (i : Nat) : ApiState :=
  { tool := { st.tool with status := ToolStatus.scanning },
    jobs := mark_running st.jobs i }

/-- Number of `running` jobs an `ApiState` holds for a (tool, target) pair. -/
def running_count (st : ApiState) (tname target : String) : Nat :=
  (st.jobs.filter (fun j =>
    decide (j.status = JobStatus.running ∧ j.toolName = tname ∧
            j.target = target))).length

/-! ### The nmap Celery flow (`tasks.py`: `execute_tool_scan` → `run_nmap_scan`) -/

/-- Outcome of the `subprocess.run` call inside `run_nmap_scan`: either the
process returned (its stdout is used), or an exception was raised
(`TimeoutExpired` included) and caught by the generic handler. -/
inductive SubprocResult
  | ok (stdout : String)
  | raised (msg : String)
  deriving DecidableEq

/-- Database state of one dispatched nmap scan: the `ScanResult` row whose id
was passed as `scan_result_id`, the nmap tool row, and any further
`ScanResult` rows created along the way. -/
structure NmapTaskState where
  scan_result : ScanResult
  tool : SecurityTool
  created : List ScanResult
  deriving DecidableEq

/-- The writes of `execute_tool_scan` (tasks.py, success path, nmap branch):
`scan_result.status='running'`, `tool.status='scanning'`; `run_nmap_scan` is
queued asynchronously and the task returns success. -/
def execute_tool_scan_nmap (st : NmapTaskState) : NmapTaskState :=
  { st with
    scan_result := { st.scan_result with status := JobStatus.running },
    tool := { st.tool with status := ToolStatus.scanning } }

/-- `run_nmap_scan` (tasks.py): sets the tool to `scanning`; on subprocess
return it CREATES A NEW `ScanResult` with `status='completed'` (it never
receives or updates `scan_result_id`) and marks the tool `active`,
incrementing `scan_count`; on any exception it marks the tool `error` and
records the message.  No path assigns `timed_out`. -/
def run_nmap_scan (now : Int) (target scanType : String) (sub : SubprocResult)
    (st : NmapTaskState) : NmapTaskState :=
  let tool1 : SecurityTool := { st.tool with status := ToolStatus.scanning }
  match sub with
  | SubprocResult.ok out =>
    let scan : ScanResult :=
      { toolName := tool1.name
        scan_type := scanType
        target := target
        start_time := now
        end_time := some now
        status := JobStatus.completed
        raw_output := out
        vulnerabilities_found := 0 }
    { st with
      tool := { tool1 with
                status := ToolStatus.active
                last_scan := some now
                scan_count := tool1.scan_count + 1 }
      created := st.created ++ [scan] }
  | SubprocResult.raised msg =>
    { st with tool := { tool1 with
                        status := ToolStatus.error
                        error_message := some msg } }

/-- The whole dispatched flow for an nmap job: `execute_tool_scan` followed by
the asynchronously queued `run_nmap_scan` actually running. -/
def nmap_dispatch_and_run (now : Int) (target scanType : String)
    (sub : SubprocResult) (st : NmapTaskState) : NmapTaskState :=
  run_nmap_scan now target scanType sub (execute_tool_scan_nmap st)

/-! ### Dedup and counting (`scripts/nmap_integration.py`, `_parse_nmap_output`) -/

/-- `Vulnerability.objects.get_or_create(vuln_id=key, ...)` against a store
holding the existing `vuln_id` keys: an existing key leaves the store
unchanged, a new key is inserted. -/
def get_or_create (store : List String) (key : String) : List String :=
  if key ∈ store then store else store ++ [key]

/-- The per-candidate loop of `NmapScanner._parse_nmap_output`, with the
candidate dedup keys (`vuln_id` values extracted from the XML) abstracted as
a list: each candidate is `get_or_create`d and then `vuln_count += 1` runs
UNCONDITIONALLY, whether or not the key already existed.  Returns the new
store and the reported `vuln_count`. -/
def parse_nmap_output : List String → List String → List String × Nat
  | store, [] => (store, 0)
  | store, k :: ks =>
    let out := parse_nmap_output (get_or_create store k) ks
    (out.1, out.2 + 1)

/-! ### `NmapScanner.scan_network` (`scripts/nmap_integration.py`) -/

/-- Outcome of the nmap subprocess inside `scan_network`: clean completion
with a number of parsed findings, `subprocess.TimeoutExpired`, or any other
exception (nonzero return code included, which `scan_network` raises on). -/
inductive NetScanOutcome
  | ok (stdout : String) (vulnCount : Nat)
  | timeout
  | failure (msg : String)
  deriving DecidableEq

/-- What one `scan_network` call leaves behind: the tool row, the created
`ScanResult` (when any), and the `SecurityAlert` rows it created. -/
structure ScanNetworkRun where
  tool : SecurityTool
  result : Option ScanResult
  alerts : List SecurityAlert
  deriving DecidableEq

/-- `NmapScanner.scan_network`: tool to `scanning`; on success it stores a
completed `ScanResult`, marks the tool `active` (with `scan_count += 1`) and
creates exactly one `scan_complete` alert naming the target and the finding
count; on timeout or any other exception the tool goes to `error` with the
message recorded and NO alert is created. -/
def scan_network (now : Int) (target scanType : String) (o : NetScanOutcome)
    (tool : SecurityTool) : ScanNetworkRun :=
  let tool1 : SecurityTool := { tool with status := ToolStatus.scanning }
  match o with
  | NetScanOutcome.ok out n =>
    let scan : ScanResult :=
      { toolName := tool1.name
        scan_type := scanType
        target := target
        start_time := now
        end_time := some now
        status := JobStatus.completed
        raw_output := out
        vulnerabilities_found := n }
    { tool := { tool1 with
                status := ToolStatus.active
                last_scan := some now
                scan_count := tool1.scan_count + 1 }
      result := some scan
      alerts := [{ alert_type := AlertType.scan_complete
                   severity := Severity.low
                   message := "Nmap " ++ scanType ++ " scan completed for " ++
                     target ++ ". Found " ++ toString n ++ " issues."
                   source := "nmap_scanner"
                   toolName := tool1.name
                   acknowledged := false }] }
  | NetScanOutcome.timeout =>
    { tool := { tool1 with
                status := ToolStatus.error
                error_message := some "Scan timeout" }
      result := none
      alerts := [] }
  | NetScanOutcome.failure msg =>
    { tool := { tool1 with
                status := ToolStatus.error
                error_message := some msg }
      result := none
      alerts := [] }

/-! ### Concrete fixtures used by the evaluation theorems -/

/-- An nmap tool row as first created (`status` defaults to `inactive`). -/
def demoTool : SecurityTool :=
  { name := "nmap", status := ToolStatus.inactive, last_scan := none,
    scan_count := 0, error_message := none }

/-- A queued nmap `ScanResult` as the scheduler creates it. -/
def demoJob : ScanResult :=
  { toolName := "nmap", scan_type := "basic", target := "10.0.0.1",
    start_time := 0, end_time := none, status := JobStatus.queued,
    raw_output := "", vulnerabilities_found := 0 }

/-- An active weekly schedule that has never run. -/
def demoWeekly : ScanSchedule :=
  { toolName := "nmap", target := "10.0.0.0/24", scan_type := "basic",
    frequency := Frequency.weekly, is_active := true,
    next_run := none, last_run := none }

/-- An active monthly schedule that has never run. -/
def demoMonthly : ScanSchedule :=
  { toolName := "zap", target := "http://app.local", scan_type := "basic",
    frequency := Frequency.monthly, is_active := true,
    next_run := none, last_run := none }

/-- An active hourly schedule whose last run was at epoch second 0. -/
def demoHourly : ScanSchedule :=
  { toolName := "nmap", target := "10.0.0.0/24", scan_type := "basic",
    frequency := Frequency.hourly, is_active := true,
    next_run := some 3600, last_run := some 0 }

/-- An active daily schedule that has never run. -/
def demoDaily : ScanSchedule :=
  { toolName := "trivy", target := "alpine:3.19", scan_type := "container_scan",
    frequency := Frequency.daily, is_active := true,
    next_run := none, last_run := none }

/-! ## C5 — severity normalization -/

/-- C5: severity normalization is total and deterministic with fixed
thresholds.  `_cvss_to_severity` yields `critical` exactly on scores ≥ 9,
`high` exactly on [7, 9), `medium` exactly on [4, 7), `low` exactly below 4,
and `medium` on a missing score; `_map_severity` yields `critical` exactly on
levels ≥ 12, `high` on [9, 12), `medium` on [6, 9), `low` below 6.  In
particular 9.5 → critical, 7.0 → high, 3.9 → low. -/
theorem C5_severity_thresholds :
    (∀ q : ℚ, cvss_to_severity (some q) = Severity.critical ↔ 9 ≤ q) ∧
    (∀ q : ℚ, cvss_to_severity (some q) = Severity.high ↔ 7 ≤ q ∧ q < 9) ∧
    (∀ q : ℚ, cvss_to_severity (some q) = Severity.medium ↔ 4 ≤ q ∧ q < 7) ∧
    (∀ q : ℚ, cvss_to_severity (some q) = Severity.low ↔ q < 4) ∧
    cvss_to_severity none = Severity.medium ∧
    cvss_to_severity (some 9.5) = Severity.critical ∧
    cvss_to_severity (some 7) = Severity.high ∧
    cvss_to_severity (some 3.9) = Severity.low ∧
    (∀ l : Int, map_severity l = Severity.critical ↔ 12 ≤ l) ∧
    (∀ l : Int, map_severity l = Severity.high ↔ 9 ≤ l ∧ l < 12) ∧
    (∀ l : Int, map_severity l = Severity.medium ↔ 6 ≤ l ∧ l < 9) ∧
    (∀ l : Int, map_severity l = Severity.low ↔ l < 6) := by
  refine ⟨?_, ?_, ?_, ?_, rfl, by norm_num [cvss_to_severity],
    by norm_num [cvss_to_severity], by norm_num [cvss_to_severity],
    ?_, ?_, ?_, ?_⟩ <;>
    intro x <;> simp only [cvss_to_severity, map_severity] <;>
    split_ifs with h1 h2 h3 <;>
    simp_all <;>
    first
      | omega
      | linarith
      | exact fun hx => by linarith

/-! ## C9 — start_scan with an empty target still flips the tool -/

/-- C9: for every state and scan type, `start_scan` with an empty target
returns the 400 error response and creates no `ScanResult`, yet the tool row
has already been saved with `status = scanning`. -/
theorem C9_empty_target_marks_tool_scanning (now : Int) (st : ApiState)
    (scanType : String) :
    start_scan now st "" scanType =
      ({ tool := { st.tool with status := ToolStatus.scanning },
         jobs := st.jobs }, StartScanResp.badRequest) := by
  simp [start_scan]

/-! ## C10 — toggle_active is an involution touching only is_active -/

/-- C10: `toggle_active` negates `is_active` and changes no other field of
the schedule, and applying it twice restores the schedule exactly. -/
theorem C10_toggle_active_involution (s : ScanSchedule) :
    toggle_active (toggle_active s) = s ∧
    (toggle_active s).is_active = !s.is_active ∧
    (toggle_active s).toolName = s.toolName ∧
    (toggle_active s).target = s.target ∧
    (toggle_active s).scan_type = s.scan_type ∧
    (toggle_active s).frequency = s.frequency ∧
    (toggle_active s).next_run = s.next_run ∧
    (toggle_active s).last_run = s.last_run := by
  refine ⟨?_, rfl, rfl, rfl, rfl, rfl, rfl, rfl⟩
  cases s
  simp [toggle_active]

/-! ## C1 — job/tool status pair after execute -/

/-- The database state of a freshly dispatched queued nmap job. -/
def c1Start : NmapTaskState :=
  { scan_result := demoJob, tool := demoTool, created := [] }

/-- C1 (code evaluation at the failing input): dispatching a queued nmap job
through `execute_tool_scan` and letting the queued `run_nmap_scan` subtask
run to a successful finish leaves the `ScanResult` passed to execute at
status `running` (the subtask creates a fresh completed row instead of
updating `scan_result_id`), while the tool is `active` — the pair
(running, active), which the claim excludes. -/
theorem C1_eval_job_left_running :
    (nmap_dispatch_and_run 100 "10.0.0.1" "basic"
      (SubprocResult.ok "<nmaprun/>") c1Start).scan_result.status =
        JobStatus.running ∧
    (nmap_dispatch_and_run 100 "10.0.0.1" "basic"
      (SubprocResult.ok "<nmaprun/>") c1Start).tool.status =
        ToolStatus.active := ⟨rfl, rfl⟩

/-! ## C3 — hourly due test uses the sub-day seconds component -/

/-- C3 (code evaluation at the failing input): an active hourly schedule
whose last run was 87000 seconds (24 h 10 min, more than a day) before the
tick is NOT due under the code — `(now − lastRun).seconds` is the sub-day
component 600, below 3600 — so the tick creates no job, though the claim
says any hourly schedule more than an hour (a fortiori more than 24 h)
past its last run is due. -/
theorem C3_eval_hourly_seconds_bug :
    (86400 : Int) < 87000 - 0 ∧
    demoHourly.is_active = true ∧
    demoHourly.frequency = Frequency.hourly ∧
    demoHourly.last_run = some 0 ∧
    hourly_due 87000 demoHourly = false ∧
    (scheduler_tick 87000 [demoHourly]).2 = [] := by
  refine ⟨by norm_num, rfl, rfl, rfl, by decide, by decide⟩

/-! ## C2 — dedup stores once but counts every candidate -/

/-- C2 (counterexample): running `_parse_nmap_output` a second time over the
same single candidate key leaves the store unchanged but reports a
`vuln_count` of 1, not the 0 the claim requires. -/
theorem C2_counterexample_second_run_counts :
    (parse_nmap_output ((parse_nmap_output [] ["NMAP-10.0.0.5-22"]).1)
      ["NMAP-10.0.0.5-22"]).2 = 1 ∧
    (parse_nmap_output ((parse_nmap_output [] ["NMAP-10.0.0.5-22"]).1)
      ["NMAP-10.0.0.5-22"]).1 =
      (parse_nmap_output [] ["NMAP-10.0.0.5-22"]).1 := by
  exact ⟨rfl, by decide⟩

/-- The reported `vuln_count` is always the number of candidates, existing
keys included. -/
theorem parse_count_eq_length (keys : List String) :
    ∀ store : List String, (parse_nmap_output store keys).2 = keys.length := by
  induction keys with
  | nil => intro store; rfl
  | cons k ks ih =>
    intro store
    simp only [parse_nmap_output, List.length_cons]
    rw [ih (get_or_create store k)]

/-- `get_or_create` keeps every key that was already stored. -/
theorem mem_get_or_create_of_mem {a : String} {store : List String}
    (k : String) (h : a ∈ store) : a ∈ get_or_create store k := by
  unfold get_or_create
  split_ifs with hk
  · exact h
  · exact List.mem_append_left _ h

/-- `get_or_create` makes its key present. -/
theorem mem_get_or_create_self (store : List String) (k : String) :
    k ∈ get_or_create store k := by
  unfold get_or_create
  split_ifs with hk
  · exact hk
  · exact List.mem_append_right _ (List.mem_singleton.mpr rfl)

/-- `get_or_create` of an existing key is the identity on the store. -/
theorem get_or_create_eq_of_mem {k : String} {store : List String}
    (h : k ∈ store) : get_or_create store k = store := by
  unfold get_or_create
  exact if_pos h

/-- Parsing never drops a stored key. -/
theorem mem_parse_store_of_mem {a : String} (keys : List String) :
    ∀ store : List String, a ∈ store →
      a ∈ (parse_nmap_output store keys).1 := by
  induction keys with
  | nil => intro store h; exact h
  | cons k ks ih =>
    intro store h
    simp only [parse_nmap_output]
    exact ih (get_or_create store k) (mem_get_or_create_of_mem k h)

/-- After parsing, every candidate key is stored. -/
theorem mem_parse_store_of_mem_keys {a : String} (keys : List String) :
    ∀ store : List String, a ∈ keys →
      a ∈ (parse_nmap_output store keys).1 := by
  induction keys with
  | nil => intro store h; cases h
  | cons k ks ih =>
    intro store h
    simp only [parse_nmap_output]
    rcases List.mem_cons.mp h with h | h
    · subst h
      exact mem_parse_store_of_mem ks (get_or_create store a)
        (mem_get_or_create_self store a)
    · exact ih (get_or_create store k) h

/-- Parsing candidates that are all already stored leaves the store as is. -/
theorem parse_store_eq_of_subset (keys : List String) :
    ∀ store : List String, (∀ a ∈ keys, a ∈ store) →
      (parse_nmap_output store keys).1 = store := by
  induction keys with
  | nil => intro store _; rfl
  | cons k ks ih =>
    intro store h
    simp only [parse_nmap_output]
    rw [get_or_create_eq_of_mem (h k (List.mem_cons_self k ks))]
    exact ih store (fun a ha => h a (List.mem_cons_of_mem _ ha))

/-- C2 amended: persistence is idempotent — a second run of
`_parse_nmap_output` over the same candidates adds nothing to the store —
but a candidate whose dedup key already exists is still counted: the
reported `vuln_count` equals the number of candidates on every run, so the
second run reports the candidate count again, not 0. -/
theorem C2_amended_store_idempotent_but_count_repeats
    (store keys : List String) :
    (parse_nmap_output (parse_nmap_output store keys).1 keys).1 =
      (parse_nmap_output store keys).1 ∧
    (parse_nmap_output (parse_nmap_output store keys).1 keys).2 =
      keys.length ∧
    (parse_nmap_output store keys).2 = keys.length := by
  refine ⟨?_, parse_count_eq_length keys _, parse_count_eq_length keys store⟩
  exact parse_store_eq_of_subset keys _
    (fun a ha => mem_parse_store_of_mem_keys keys store ha)

/-! ## C4 — no mutual exclusion on (tool, target) -/

/-- A `running` nmap job against 10.0.0.9. -/
def runningJob : ScanResult :=
  { toolName := "nmap", scan_type := "basic", target := "10.0.0.9",
    start_time := 0, end_time := none, status := JobStatus.running,
    raw_output := "", vulnerabilities_found := 0 }

/-- An API state that already holds one running job for (nmap, 10.0.0.9). -/
def c4State : ApiState :=
  { tool := { demoTool with status := ToolStatus.scanning },
    jobs := [runningJob] }

/-- C4 (counterexample): with a job for (nmap, 10.0.0.9) already `running`,
a second `start_scan` for the same pair is accepted (200, not a rejection)
and, once its `execute_tool_scan` write runs, two jobs for the pair are
`running` at once. -/
theorem C4_counterexample_second_running_job :
    running_count c4State "nmap" "10.0.0.9" = 1 ∧
    (start_scan 50 c4State "10.0.0.9" "basic").2 =
      StartScanResp.scanStarted ∧
    running_count
      (execute_tool_scan_start (start_scan 50 c4State "10.0.0.9" "basic").1 1)
      "nmap" "10.0.0.9" = 2 := by
  exact ⟨by decide, rfl, by decide⟩

/-- C4 amended: `start_scan` performs no mutual-exclusion check at all: any
dispatch with a non-empty target — in particular one for a (tool, target)
pair that already has a running job — is accepted and appends a new queued
job, never returning a rejection. -/
theorem C4_amended_dispatch_never_rejected (now : Int) (st : ApiState)
    (target scanType : String) (h : target ≠ "") :
    (start_scan now st target scanType).2 = StartScanResp.scanStarted ∧
    (start_scan now st target scanType).1.jobs =
      st.jobs ++
        [{ toolName := st.tool.name
           scan_type := scanType
           target := target
           start_time := now
           end_time := none
           status := JobStatus.queued
           raw_output := ""
           vulnerabilities_found := 0 }] := by
  simp [start_scan, h]

/-- Witness for the amended C4 theorem at a concrete dispatch. -/
theorem C4_amended_dispatch_witness :
    ("10.0.0.9" : String) ≠ "" ∧
    (start_scan 50 c4State "10.0.0.9" "basic").2 =
      StartScanResp.scanStarted :=
  ⟨by decide,
   (C4_amended_dispatch_never_rejected 50 c4State "10.0.0.9" "basic"
     (by decide)).1⟩

/-! ## C6 — weekly and monthly schedules are never evaluated -/

/-- C6 (counterexample): an active weekly and an active monthly schedule,
both never run (hence due by the claim), survive a full scheduler tick with
no job created and no field updated. -/
theorem C6_counterexample_weekly_monthly_ignored :
    demoWeekly.is_active = true ∧ demoWeekly.last_run = none ∧
    demoMonthly.is_active = true ∧ demoMonthly.last_run = none ∧
    scheduler_tick 1000 [demoWeekly, demoMonthly] =
      ([demoWeekly, demoMonthly], []) := by
  refine ⟨rfl, rfl, rfl, rfl, by decide⟩

/-- C6 amended: a scheduler tick evaluates only daily (in
`trigger_scheduled_scans`) and hourly (in `trigger_hourly_scans`) schedules;
a schedule of frequency weekly or monthly is never due-tested by any tick:
no job is created for it and its row is left unchanged. -/
theorem C6_amended_only_daily_hourly (now : Int) (s : ScanSchedule)
    (h : s.frequency = Frequency.weekly ∨ s.frequency = Frequency.monthly) :
    scheduler_tick now [s] = ([s], []) := by
  rcases h with h | h <;>
    simp [scheduler_tick, trigger_scheduled_scans, trigger_hourly_scans, h]

/-- Witness for the amended C6 theorem on a concrete weekly schedule. -/
theorem C6_amended_only_daily_hourly_witness :
    scheduler_tick 0 [demoWeekly] = ([demoWeekly], []) :=
  C6_amended_only_daily_hourly 0 demoWeekly (Or.inl rfl)

/-! ## C7 — notification only on the successful terminal transition -/

/-- C7 (counterexample): a failed run of `scan_network` is a terminal
transition — the tool ends at `error` — yet no notification is created. -/
theorem C7_counterexample_failure_emits_none :
    (scan_network 0 "10.0.0.1" "basic"
      (NetScanOutcome.failure "nmap exited 1") demoTool).tool.status =
        ToolStatus.error ∧
    (scan_network 0 "10.0.0.1" "basic"
      (NetScanOutcome.failure "nmap exited 1") demoTool).alerts = [] :=
  ⟨rfl, rfl⟩

/-- C7 amended: exactly one `scan_complete` notification is emitted on the
successful terminal transition of `scan_network`, carrying the tool name and
a message naming the target and the finding count; failed and timed-out
terminal transitions emit no notification at all. -/
theorem C7_amended_notification_on_success_only (now : Int)
    (target scanType out msg : String) (n : Nat) (tool : SecurityTool) :
    (scan_network now target scanType (NetScanOutcome.ok out n) tool).alerts =
      [{ alert_type := AlertType.scan_complete
         severity := Severity.low
         message := "Nmap " ++ scanType ++ " scan completed for " ++ target ++
           ". Found " ++ toString n ++ " issues."
         source := "nmap_scanner"
         toolName := tool.name
         acknowledged := false }] ∧
    (scan_network now target scanType NetScanOutcome.timeout tool).alerts =
      [] ∧
    (scan_network now target scanType (NetScanOutcome.failure msg)
      tool).alerts = [] :=
  ⟨rfl, rfl, rfl⟩

/-! ## C8 — run_now creates a pending job, schedule untouched -/

/-- C8 (counterexample): `run_now` on a concrete schedule creates the job
with status `pending`, not the `queued` the claim states. -/
theorem C8_counterexample_run_now_pending :
    (run_now 0 demoDaily).2.status = JobStatus.pending ∧
    JobStatus.pending ≠ JobStatus.queued :=
  ⟨rfl, by decide⟩

/-- C8 amended: a manual run-now request creates a new job in state
`pending` (not `queued`) bound to the schedule's tool/target/scan type, and
leaves the schedule row — `last_run`, `next_run` and every other field —
completely unchanged: due-time evaluation is bypassed entirely. -/
theorem C8_amended_run_now_pending_frame (now : Int) (s : ScanSchedule) :
    (run_now now s).1 = s ∧
    (run_now now s).2.status = JobStatus.pending ∧
    (run_now now s).2.toolName = s.toolName ∧
    (run_now now s).2.target = s.target ∧
    (run_now now s).2.scan_type = s.scan_type ∧
    (run_now now s).2.vulnerabilities_found = 0 :=
  ⟨rfl, rfl, rfl, rfl, rfl, rfl⟩

end SentinelHub
